import Mathlib

/-!
Verification development for the command pipeline of
`src/backend/server.py` (llama-desktop-controller).

The Python functions `clean_generated_code`, `is_code_safe`,
`execute_code`, `call_llm_for_code` and `process_command` are embedded as
executable Lean definitions.  Strings are modelled as `String`
(list-of-`Char` under the hood); the regular-expression whitespace class
`\s` and Python's `str.rstrip()` are modelled over the ASCII whitespace
characters.  The behaviour of the environment (the child process spawned
by `subprocess.run`, and the inference backend) is an explicit parameter
of the embedded functions, so every exit path of the Python code is a
constructor case here.
-/

namespace LlamaDesktop

/-- ASCII whitespace, the characters matched by Python's regex class
`\s` and stripped by `str.rstrip()` (restricted to the ASCII range). -/
def isPySpace (c : Char) : Bool :=
  c = ' ' || c = '\t' || c = '\n' || c = '\r' || c = '\x0b' || c = '\x0c'

/-- The characters of the opening fence marker with language tag,
the literal part of the pattern `^```python\s*`. -/
def pyFence : List Char := "```python".data

/-- The characters of a bare fence marker, the literal part of the
patterns `^```\s*` and `\s*```$`. -/
def fence : List Char := "```".data

/-- `re.sub(r'^TAG\s*', '', s)` for a literal `TAG`: with no `MULTILINE`
flag, `^` matches only at the start of the string, so at most one match
is removed — the tag followed by the maximal run of whitespace. -/
def stripLeadingTag (tag : List Char) (s : List Char) : List Char :=
  if s.take tag.length = tag then (s.drop tag.length).dropWhile isPySpace else s

/-- `re.sub(r'\s*```$', '', s)`: without `MULTILINE`, `$` matches at the
end of the string or just before a newline that ends the string.  The
leftmost (unique) match is the maximal whitespace run immediately before
a fence that sits at the end (or just before a final newline, which is
kept). -/
def stripTrailingFence (s : List Char) : List Char :=
  let r := s.reverse
  if r.take 3 = fence.reverse then
    ((r.drop 3).dropWhile isPySpace).reverse
  else if r.take 4 = '\n' :: fence.reverse then
    (((r.drop 4).dropWhile isPySpace).reverse) ++ ['\n']
  else s

/-- Python's `line.rstrip()` over ASCII whitespace. -/
def rstripL (l : List Char) : List Char :=
  (l.reverse.dropWhile isPySpace).reverse

/-- Python's `s.split('\n')`: always returns at least one piece, pieces
contain no newline. -/
def splitNl : List Char → List (List Char)
  | [] => [[]]
  | c :: cs =>
    let rest := splitNl cs
    if c = '\n' then [] :: rest
    else (c :: rest.headD []) :: rest.tail

/-- Python's `'\n'.join(lines)`. -/
def joinNl : List (List Char) → List Char
  | [] => []
  | [l] => l
  | l :: ls => l ++ '\n' :: joinNl ls

/-- The line-processing half of `clean_generated_code`: split on
newlines, `rstrip` every line, rejoin with newlines. -/
def lineClean (s : List Char) : List Char :=
  joinNl ((splitNl s).map rstripL)

/-- `clean_generated_code` at the character-list level: the three
`re.sub` fence removals in source order, then the per-line
trailing-whitespace trim. -/
def cleanL (s : List Char) : List Char :=
  lineClean (stripLeadingTag fence (stripTrailingFence (stripLeadingTag pyFence s)))

/-- `clean_generated_code(code)` from `src/backend/server.py`. -/
def clean_generated_code (s : String) : String :=
  String.mk (cleanL s.data)

/-- The dictionary `{"success": ..., "message": ..., "output": ...}`
returned by `execute_code`. -/
structure ExecutionResult where
  success : Bool
  message : String
  output : String
deriving DecidableEq, Repr

/-- Observable filesystem / process state when `execute_code` returns:
whether the artifact `temp_code.py` still exists, and whether the child
process is still running. -/
structure ExecState where
  artifactExists : Bool
  childRunning : Bool
deriving DecidableEq, Repr

/-- Outcome of the `subprocess.run(["python3", code_file], ...)` call,
the environment parameter of the embedding.  `childRemovedArtifact`
records whether the executed code itself deleted `temp_code.py` while
running.  On `timedOut`, `subprocess.run` kills the child and raises
`subprocess.TimeoutExpired`; any stdout/stderr the child produced before
the kill is carried here so the embedding can show it is discarded.
`launchError` is any other exception raised during launch or capture. -/
inductive RunOutcome where
  | completed (exitCode : Int) (stdout stderr : String) (childRemovedArtifact : Bool)
  | timedOut (partialStdout partialStderr : String) (childRemovedArtifact : Bool)
  | launchError (description : String) (childRemovedArtifact : Bool)

/-- The fixed identity of the execution artifact. -/
def code_file : String := "temp_code.py"

/-- The text of `str(e)` for the `FileNotFoundError` that `os.remove`
raises on a missing `temp_code.py`. -/
def fnf_message : String := "[Errno 2] No such file or directory: temp_code.py"

/-- `os.remove(code_file)`: removes the file if present (new existence:
`false`), raises `FileNotFoundError` if absent. -/
def os_remove (present : Bool) : Except String Bool :=
  if present then Except.ok false else Except.error fnf_message

/-- The guarded delete `if os.path.exists(code_file): os.remove(code_file)`
used in the `except` handlers: never raises. -/
def guarded_remove (present : Bool) : Except String Bool :=
  if present then os_remove present else Except.ok present

/-- Existence of the artifact after running the guarded delete. -/
def run_guarded_remove (present : Bool) : Bool :=
  match guarded_remove present with
  | Except.ok post => post
  | Except.error _ => present

/-- `execute_code(code)` from `src/backend/server.py`.  The code is
normalized and written to `code_file` (so the artifact exists when the
child is launched); the child runs with outcome `run`.  On normal
completion the code does `os.remove(code_file)` unguarded, before
inspecting `result.returncode`; a `FileNotFoundError` there falls into
the generic `except Exception` handler.  The `except` handlers use the
guarded delete.  Returns the result dictionary and the final state. -/
def execute_code (code : String) (run : RunOutcome) : ExecutionResult × ExecState :=
  let _written := clean_generated_code code
  match run with
  | RunOutcome.completed ec out err childRm =>
    match os_remove (!childRm) with
    | Except.ok post =>
      (if ec = 0 then
        ⟨true, "Command executed successfully", out⟩
       else
        ⟨false, "Error executing code (exit code " ++ toString ec ++ ")", err⟩,
       ⟨post, false⟩)
    | Except.error e =>
      (⟨false, "Exception during execution: " ++ e, e⟩,
       ⟨run_guarded_remove (!childRm), false⟩)
  | RunOutcome.timedOut _ _ childRm =>
    (⟨false, "Command execution timed out", "Execution took too long and was terminated"⟩,
     ⟨run_guarded_remove (!childRm), false⟩)
  | RunOutcome.launchError e childRm =>
    (⟨false, "Exception during execution: " ++ e, e⟩,
     ⟨run_guarded_remove (!childRm), false⟩)

/-- Outcome of the `llama_client.inference.chat_completion` call: either
the completion text, or any exception (network error, malformed
response). -/
inductive LLMOutcome where
  | success (text : String)
  | failure (description : String)

/-- The sentinel returned by `call_llm_for_code` when the backend call
raises. -/
def error_sentinel : String := "# Error generating code"

/-- `call_llm_for_code(user_query)` from `src/backend/server.py`: the
backend's behaviour is the `LLMOutcome` parameter; on success the
completion text is returned unchanged, on any exception the sentinel is
returned instead of raising. -/
def call_llm_for_code (user_query : String) (o : LLMOutcome) : String :=
  match user_query, o with
  | _, LLMOutcome.success t => t
  | _, LLMOutcome.failure _ => error_sentinel

/-- The denylist `dangerous_patterns` of `is_code_safe`: every entry is
commented out in the source, so the runtime list is empty.  A pattern is
modelled as its match predicate on the code text. -/
def dangerous_patterns : List (String → Bool) := []

/-- `is_code_safe(code)` with the denylist as an explicit parameter:
return `false` on the first pattern match, else `false` when `ast.parse`
raises `SyntaxError`, else `true`.  `parseOk` is the oracle for whether
`ast.parse(code)` succeeds. -/
def is_code_safe_gen (patterns : List (String → Bool)) (parseOk : Bool)
    (code : String) : Bool :=
  if patterns.any (fun p => p code) then false
  else if parseOk then true else false

/-- `is_code_safe(code)` from `src/backend/server.py`, with its actual
(empty) runtime denylist. -/
def is_code_safe (parseOk : Bool) (code : String) : Bool :=
  is_code_safe_gen dangerous_patterns parseOk code

/-- The JSON response assembled by `process_command`. -/
structure PipelineResponse where
  command : String
  generated_code : String
  execution_result : ExecutionResult
deriving DecidableEq, Repr

/-- `process_command` from `src/backend/server.py` (the non-400 path):
generate code from the command, execute it, and assemble the response
from the command, the raw (pre-normalization) generated code and the
execution result.  `is_code_safe` is never called. -/
def process_command (cmd : String) (llm : LLMOutcome) (run : RunOutcome) :
    PipelineResponse :=
  let gen := call_llm_for_code cmd llm
  let res := (execute_code gen run).fst
  ⟨cmd, gen, res⟩

/-- Models the Python interpreter on trivial programs: a program every
line of which is blank or a `#` comment performs no action and exits
with status 0 and empty stdout. -/
def is_comment_only (s : String) : Bool :=
  (splitNl s.data).all (fun l =>
    let t := l.dropWhile isPySpace
    t = [] || t.take 1 = "#".data)

/-! Helper lemmas about the line-processing half of the normalizer. -/

theorem dropWhile_self (p : Char → Bool) (l : List Char) :
    List.dropWhile p (List.dropWhile p l) = List.dropWhile p l := by
  induction l with
  | nil => rfl
  | cons a t ih =>
    by_cases h : p a = true
    · simp [List.dropWhile_cons, h, ih]
    · simp [List.dropWhile_cons, h]

theorem rstripL_idem (l : List Char) : rstripL (rstripL l) = rstripL l := by
  simp [rstripL, dropWhile_self]

theorem splitNl_ne_nil (s : List Char) : splitNl s ≠ [] := by
  cases s with
  | nil => simp [splitNl]
  | cons c cs =>
    simp only [splitNl]
    by_cases h : c = '\n' <;> simp [h]

theorem splitNl_no_newline (s : List Char) :
    ∀ l ∈ splitNl s, '\n' ∉ l := by
  induction s with
  | nil =>
    intro l hl
    simp [splitNl] at hl
    simp [hl]
  | cons c cs ih =>
    intro l hl
    simp only [splitNl] at hl
    by_cases h : c = '\n'
    · simp [h] at hl
      rcases hl with hl | hl
      · simp [hl]
      · exact ih l hl
    · simp [h] at hl
      rcases hl with hl | hl
      · subst hl
        intro hmem
        rcases List.mem_cons.mp hmem with hc | hc
        · exact h hc.symm
        · cases hsp : splitNl cs with
          | nil => exact absurd hsp (splitNl_ne_nil cs)
          | cons x xs =>
            rw [hsp] at hc
            simp at hc
            exact ih x (by rw [hsp]; simp) hc
      · exact ih l (List.mem_of_mem_tail hl)

theorem rstripL_no_newline (l : List Char) (h : '\n' ∉ l) :
    '\n' ∉ rstripL l := by
  intro hmem
  apply h
  simp only [rstripL, List.mem_reverse] at hmem
  exact List.mem_reverse.mp ((List.dropWhile_sublist isPySpace).mem hmem)

theorem joinNl_cons_cons (a b : List Char) (t : List (List Char)) :
    joinNl (a :: b :: t) = a ++ '\n' :: joinNl (b :: t) := rfl

theorem splitNl_of_no_newline (l : List Char) (hl : '\n' ∉ l) :
    splitNl l = [l] := by
  induction l with
  | nil => rfl
  | cons c t ih =>
    have hc : ¬ c = '\n' := fun h => hl (by simp [h])
    have ht : '\n' ∉ t := fun h => hl (List.mem_cons_of_mem c h)
    simp [splitNl, hc, ih ht]

theorem splitNl_append_newline (l r : List Char) (hl : '\n' ∉ l) :
    splitNl (l ++ '\n' :: r) = l :: splitNl r := by
  induction l with
  | nil => simp [splitNl]
  | cons c t ih =>
    have hc : ¬ c = '\n' := fun h => hl (by simp [h])
    have ht : '\n' ∉ t := fun h => hl (List.mem_cons_of_mem c h)
    simp [splitNl, hc, ih ht]

theorem splitNl_joinNl (ls : List (List Char)) (hne : ls ≠ [])
    (h : ∀ l ∈ ls, '\n' ∉ l) : splitNl (joinNl ls) = ls := by
  induction ls with
  | nil => exact absurd rfl hne
  | cons l t ih =>
    cases t with
    | nil =>
      simp only [joinNl]
      exact splitNl_of_no_newline l (h l (by simp))
    | cons l' t' =>
      rw [joinNl_cons_cons, splitNl_append_newline l _ (h l (by simp))]
      rw [ih (by simp) (fun x hx => h x (List.mem_cons_of_mem l hx))]

theorem lineClean_idem (z : List Char) :
    lineClean (lineClean z) = lineClean z := by
  unfold lineClean
  have hne : (splitNl z).map rstripL ≠ [] := by
    intro h
    exact splitNl_ne_nil z (List.map_eq_nil_iff.mp h)
  have hnl : ∀ l ∈ (splitNl z).map rstripL, '\n' ∉ l := by
    intro l hl
    rcases List.mem_map.mp hl with ⟨x, hx, hxl⟩
    exact hxl ▸ rstripL_no_newline x (splitNl_no_newline z x hx)
  rw [splitNl_joinNl _ hne hnl, List.map_map]
  congr 1
  exact List.map_congr_left (fun x _ => rstripL_idem x)

/-! Claim theorems. -/

/-- Claim C1, counterexample: when the child process exits with status 0
but has itself removed `temp_code.py`, `execute_code` reports
`success = false` and its output is the `FileNotFoundError` text, not
the captured stdout — refuting "success is true if and only if the child
exited with status 0" and "on the exit-0 path output equals stdout". -/
theorem execute_exit_zero_reported_failure_cex :
    (execute_code "print(1)" (RunOutcome.completed 0 "1" "" true)).fst.success = false
    ∧ (execute_code "print(1)" (RunOutcome.completed 0 "1" "" true)).fst.output ≠ "1" := by
  exact ⟨by decide, by decide⟩

/-- Claim C1, amended: provided the execution artifact still exists when
the child completes (the child did not remove it), `success` is true iff
the exit status is 0; on exit 0 the result is the success record with
output exactly the captured stdout; on non-zero exit the result is the
failure record whose output is the captured stderr and whose message
contains the exit code. -/
theorem execute_result_of_artifact_intact (code : String) (ec : Int) (out err : String) :
    ((execute_code code (RunOutcome.completed ec out err false)).fst.success = true ↔ ec = 0)
    ∧ (ec = 0 → (execute_code code (RunOutcome.completed ec out err false)).fst
        = ⟨true, "Command executed successfully", out⟩)
    ∧ (ec ≠ 0 → (execute_code code (RunOutcome.completed ec out err false)).fst
        = ⟨false, "Error executing code (exit code " ++ toString ec ++ ")", err⟩) := by
  by_cases h : ec = 0 <;> simp [execute_code, os_remove, h]

/-- Claim C1, witness for the amended theorem at exit code 2. -/
theorem execute_result_of_artifact_intact_witness :
    (execute_code "x" (RunOutcome.completed 2 "o" "e" false)).fst
      = ⟨false, "Error executing code (exit code " ++ toString (2 : Int) ++ ")", "e"⟩ :=
  (execute_result_of_artifact_intact "x" 2 "o" "e").2.2 (by decide)

/-- Claim C2: on every exit path of `execute_code` (normal completion
with any exit status, timeout, launch exception, each whether or not the
child removed the artifact itself) the artifact does not exist after the
call returns; and the guarded delete of the exception handlers succeeds
on an already-missing file (idempotent delete). -/
theorem execute_cleanup_all_paths :
    (∀ (code : String) (run : RunOutcome),
      (execute_code code run).snd.artifactExists = false)
    ∧ guarded_remove false = Except.ok false
    ∧ run_guarded_remove false = false := by
  refine ⟨?_, rfl, rfl⟩
  intro code run
  cases run with
  | completed ec out err crm =>
    cases crm <;> simp [execute_code, os_remove, run_guarded_remove, guarded_remove]
  | timedOut po pe crm =>
    cases crm <;> simp [execute_code, os_remove, run_guarded_remove, guarded_remove]
  | launchError d crm =>
    cases crm <;> simp [execute_code, os_remove, run_guarded_remove, guarded_remove]

/-- Claim C3: on timeout `execute_code` returns exactly the fixed
failure record (success false, the fixed timeout message, the synthetic
diagnostic as output) — in particular the result does not depend on any
partial stdout/stderr the child produced — and the final state has the
child terminated and the artifact removed. -/
theorem execute_timeout_result (code pout perr : String) (crm : Bool) :
    execute_code code (RunOutcome.timedOut pout perr crm)
      = (⟨false, "Command execution timed out",
          "Execution took too long and was terminated"⟩,
         ⟨false, false⟩) := by
  cases crm <;> rfl

/-- Claim C4: `process_command` invokes the generator and then the
executor unconditionally and assembles the response from the command,
the pre-normalization generated code and the execution result; the
safety gate's verdict (here: an arbitrary rejecting verdict `h`) is
never consulted, so the equation holds even for code `is_code_safe`
rejects. -/
theorem process_command_ignores_safety_gate (cmd c : String) (po : Bool)
    (run : RunOutcome) (h : is_code_safe po c = false) :
    process_command cmd (LLMOutcome.success c) run
      = ⟨cmd, c, (execute_code c run).fst⟩ := rfl

/-- Claim C4, witness: `"("` is rejected by the safety gate (it does not
parse), yet the pipeline still executes it and reports the executor's
result. -/
theorem process_command_ignores_safety_gate_witness :
    is_code_safe false "(" = false
    ∧ process_command "open Safari" (LLMOutcome.success "(")
        (RunOutcome.completed 1 "" "syntax error" false)
      = ⟨"open Safari", "(",
         (execute_code "(" (RunOutcome.completed 1 "" "syntax error" false)).fst⟩ :=
  ⟨by decide, process_command_ignores_safety_gate "open Safari" "(" false
    (RunOutcome.completed 1 "" "syntax error" false) (by decide)⟩

/-- Claim C5: when `ast.parse` fails (parse oracle `false`),
`is_code_safe` returns `false` for every code string and for every
denylist contents. -/
theorem is_code_safe_parse_failure (patterns : List (String → Bool)) (code : String) :
    is_code_safe_gen patterns false code = false
    ∧ is_code_safe false code = false := by
  constructor
  · unfold is_code_safe_gen
    split <;> rfl
  · rfl

/-- Claim C6, counterexample: normalization is not idempotent.  On
`"a\n``` "` the per-line rstrip turns the last line into a bare fence
that the first pass's trailing-fence pattern could no longer see, so a
second pass strips it: the first pass yields `"a\n```"`, the second
yields `"a"`. -/
theorem clean_not_idempotent_cex :
    clean_generated_code (clean_generated_code "a\n``` ")
      ≠ clean_generated_code "a\n``` " := by decide

/-- Claim C6, amended: normalization is idempotent on every input whose
normalized form is a fixed point of the three fence-stripping
substitutions (no leading `"```python"` or `"```"` fence and no trailing
fence remains after normalizing); in general idempotence fails. -/
theorem clean_idempotent_of_fence_free (s : String)
    (h1 : stripLeadingTag pyFence (cleanL s.data) = cleanL s.data)
    (h2 : stripTrailingFence (cleanL s.data) = cleanL s.data)
    (h3 : stripLeadingTag fence (cleanL s.data) = cleanL s.data) :
    clean_generated_code (clean_generated_code s) = clean_generated_code s := by
  apply congrArg String.mk
  show cleanL (cleanL s.data) = cleanL s.data
  conv_lhs =>
    rw [show cleanL (cleanL s.data)
          = lineClean (stripLeadingTag fence (stripTrailingFence
              (stripLeadingTag pyFence (cleanL s.data)))) from rfl]
  rw [h1, h2, h3]
  rw [show cleanL s.data
        = lineClean (stripLeadingTag fence (stripTrailingFence
            (stripLeadingTag pyFence s.data))) from rfl]
  exact lineClean_idem _

/-- Claim C6, witness for the amended theorem on `"print(1)"`, whose
normal form has no residual fences. -/
theorem clean_idempotent_of_fence_free_witness :
    stripLeadingTag pyFence (cleanL "print(1)".data) = cleanL "print(1)".data
    ∧ stripTrailingFence (cleanL "print(1)".data) = cleanL "print(1)".data
    ∧ stripLeadingTag fence (cleanL "print(1)".data) = cleanL "print(1)".data
    ∧ clean_generated_code (clean_generated_code "print(1)")
      = clean_generated_code "print(1)" :=
  ⟨by decide, by decide, by decide,
   clean_idempotent_of_fence_free "print(1)" (by decide) (by decide) (by decide)⟩

/-- Claim C7: on the fenced input the fences and surrounding whitespace
are removed and the inner content is preserved, and on a two-line fenced
body line order is preserved. -/
theorem clean_fenced_round_trip :
    clean_generated_code "```python\nprint(1)\n```" = "print(1)"
    ∧ clean_generated_code "```python\nfirst()\nsecond()\n```" = "first()\nsecond()" :=
  ⟨by decide, by decide⟩

/-- Claim C8: on any backend failure `call_llm_for_code` returns the
sentinel failure marker (it is a total function, so it never raises),
and the pipeline forwards that string downstream as the generated
code. -/
theorem call_llm_failure_sentinel (cmd err : String) (run : RunOutcome) :
    call_llm_for_code cmd (LLMOutcome.failure err) = error_sentinel
    ∧ (process_command cmd (LLMOutcome.failure err) run).generated_code = error_sentinel :=
  ⟨rfl, rfl⟩

/-- Claim C9: the sentinel `"# Error generating code"` is a comment-only
program (the interpreter treats it as a no-op that exits 0 with empty
stdout), so on a generation failure the end-to-end pipeline response
reports `execution_result.success = true` with empty output — the same
execution verdict a genuinely successful no-op would get. -/
theorem pipeline_sentinel_reports_success (cmd e : String) :
    is_comment_only error_sentinel = true
    ∧ process_command cmd (LLMOutcome.failure e) (RunOutcome.completed 0 "" "" false)
      = ⟨cmd, error_sentinel, ⟨true, "Command executed successfully", ""⟩⟩ :=
  ⟨by decide, rfl⟩

/-- Claim C10: when the executed code removed the artifact itself and
the child exited with status 0, the unguarded `os.remove` before the
exit-status check raises, so `execute_code` reports failure with the
exception message (and the guarded handler still leaves the artifact
absent). -/
theorem execute_artifact_removed_by_child (code out err : String) :
    (execute_code code (RunOutcome.completed 0 out err true)).fst
      = ⟨false, "Exception during execution: " ++ fnf_message, fnf_message⟩
    ∧ (execute_code code (RunOutcome.completed 0 out err true)).snd = ⟨false, false⟩ :=
  ⟨rfl, rfl⟩

end LlamaDesktop
